import Mathlib

/-!
Verification of the GateAlert train processor (src/train_processor.py).

The Python module derives, from an in-memory list of train records and route
candidates: a gate-closure schedule, a ranked route list, wait-time
predictions, a traffic-intensity classification and an alert list.  This file
embeds those computations shallowly: clock times become minute counts, Python
ints become Int, floats that participate in arithmetic become Rat, the ambient
random source becomes an explicit parameter, and exceptions become Option.
-/

namespace RailGate

/-! ### Python string-to-int parsing (int(), str.split, strptime, strftime) -/

/-- The whitespace characters stripped by Python int() before parsing. -/
def isPySpace (c : Char) : Bool :=
  c = ' ' || c = '\t' || c = '\n' || c = '\r' || c = '\x0b' || c = '\x0c'

/-- Numeric value of a decimal digit character. -/
def digitVal (c : Char) : Nat := c.toNat - 48

/-- Digits of a Python int literal after the first: plain digits, with single
underscores allowed between digits. -/
def pyDigitsAux : List Char → Nat → Option Nat
  | [], acc => some acc
  | '_' :: c :: rest, acc =>
      if c.isDigit then pyDigitsAux rest (acc * 10 + digitVal c) else none
  | c :: rest, acc =>
      if c.isDigit then pyDigitsAux rest (acc * 10 + digitVal c) else none

/-- A nonempty digit run as accepted by Python int() (underscore separators). -/
def pyNat (cs : List Char) : Option Nat :=
  match cs with
  | c :: rest => if c.isDigit then pyDigitsAux rest (digitVal c) else none
  | [] => none

/-- Python int(str): strip surrounding whitespace, optional sign, digit run. -/
def pyInt (cs : List Char) : Option Int :=
  let cs := ((cs.dropWhile isPySpace).reverse.dropWhile isPySpace).reverse
  match cs with
  | '+' :: rest => (pyNat rest).map Int.ofNat
  | '-' :: rest => (pyNat rest).map (fun n => -(n : Int))
  | rest => (pyNat rest).map Int.ofNat

/-- Python str.split(sep=colon): the groups of characters between colons. -/
def splitCols : List Char → List (List Char)
  | [] => [[]]
  | c :: rest =>
    if c = ':' then [] :: splitCols rest
    else
      match splitCols rest with
      | g :: gs => (c :: g) :: gs
      | [] => [[c]]

/-- arrival_time.split(sep=colon) unpacked into exactly two ints, then the
range checks datetime.replace performs on hour and minute.  Any failure here
is the ValueError the Python code would raise. -/
def parseArrival (s : String) : Option (Int × Int) :=
  match splitCols s.data with
  | [hs, ms] =>
    match pyInt hs, pyInt ms with
    | some h, some m =>
        if 0 ≤ h ∧ h ≤ 23 ∧ 0 ≤ m ∧ m ≤ 59 then some (h, m) else none
    | _, _ => none
  | _ => none

/-- The decimal digit character for n < 10. -/
def digitChar (n : Nat) : Char := Char.ofNat (48 + n)

/-- Two-digit zero-padded rendering, as strftime uses for %H and %M. -/
def fmt2 (n : Nat) : String := ⟨[digitChar (n / 10 % 10), digitChar (n % 10)]⟩

/-- strftime of a time-of-day given as minutes since midnight (u < 1440). -/
def fmtHMn (u : Nat) : String :=
  ⟨[digitChar (u / 60 / 10 % 10), digitChar (u / 60 % 10), ':',
    digitChar (u % 60 / 10), digitChar (u % 60 % 10)]⟩

/-- strftime of an instant given as minutes relative to midnight of the
current day; datetime arithmetic may leave the current day, strftime shows
only the time-of-day component. -/
def fmtHM (t : Int) : String := fmtHMn ((t % 1440).toNat)

/-- One or two leading decimal digits, greedily, as strptime directives do. -/
def takeD2 : List Char → Option (Nat × List Char)
  | [] => none
  | c :: rest =>
    if c.isDigit then
      match rest with
      | d :: rest2 =>
          if d.isDigit then some (10 * digitVal c + digitVal d, rest2)
          else some (digitVal c, d :: rest2)
      | [] => some (digitVal c, [])
    else none

/-- datetime.strptime with format %H:%M: hour digits, a colon, minute digits,
nothing left over, hour below 24 and minute below 60. -/
def parseStrptimeHM (s : String) : Option (Int × Int) :=
  match takeD2 s.data with
  | none => none
  | some (h, r1) =>
    match r1 with
    | ':' :: r2 =>
      match takeD2 r2 with
      | none => none
      | some (m, r3) =>
          if r3 = [] ∧ h ≤ 23 ∧ m ≤ 59 then some ((h : Int), (m : Int)) else none
    | _ => none

/-- Python int() applied to a float: truncation toward zero, here on an exact
rational. -/
def truncQ (q : ℚ) : Int := q.num.tdiv q.den

/-! ### Data model -/

/-- TrainSchedule dataclass. -/
structure TrainSchedule where
  train_number : String
  arrival_time : String
  departure_time : String
  platform : String
  route : String
  status : String
  delay_minutes : Int
  gate_closure_duration : Int
  priority : String
deriving DecidableEq

/-- Route dataclass.  distance_km and toll_cost are float literals that never
enter any computation; they are carried as exact rationals. -/
structure Route where
  route_id : String
  name : String
  distance_km : ℚ
  additional_time_minutes : Int
  traffic_level : String
  road_conditions : String
  recommended : Bool
  toll_cost : ℚ
deriving DecidableEq

/-- One record of the gate-closure schedule (the dict built per train). -/
structure ClosureEntry where
  train_number : String
  closure_start : String
  closure_end : String
  duration_minutes : Int
  priority : String
  platform : String
deriving DecidableEq

/-- One value of the wait_predictions mapping. -/
structure WaitPrediction where
  minutes_until_closure : Int
  closure_duration : Int
  total_wait_if_caught : Int
  recommended_action : String
deriving DecidableEq

/-- One generated alert dict; fields absent for a given alert type are none. -/
structure Alert where
  type : String
  priority : String
  message : String
  timestamp : String
  train_number : Option String
  closure_start : Option String
deriving DecidableEq

/-- The sample_trains list initialised in TrainDataProcessor. -/
def sample_trains : List TrainSchedule :=
  [ { train_number := "EXP-12345", arrival_time := "14:30", departure_time := "14:38",
      platform := "3", route := "Mumbai-Delhi Express", status := "ontime",
      delay_minutes := 0, gate_closure_duration := 8, priority := "high" },
    { train_number := "LOC-67890", arrival_time := "14:45", departure_time := "14:51",
      platform := "1", route := "Local Passenger Service", status := "delayed",
      delay_minutes := 15, gate_closure_duration := 8, priority := "normal" },
    { train_number := "FRT-11111", arrival_time := "15:15", departure_time := "15:27",
      platform := "2", route := "Freight Service", status := "approaching",
      delay_minutes := 0, gate_closure_duration := 12, priority := "low" },
    { train_number := "EXP-22222", arrival_time := "15:45", departure_time := "15:52",
      platform := "4", route := "Chennai-Kolkata Express", status := "ontime",
      delay_minutes := 0, gate_closure_duration := 8, priority := "high" },
    { train_number := "PSG-33333", arrival_time := "16:20", departure_time := "16:29",
      platform := "1", route := "Inter-city Passenger", status := "ontime",
      delay_minutes := 0, gate_closure_duration := 8, priority := "normal" } ]

/-- The alternative_routes list set by initialize_routes. -/
def initialize_routes : List Route :=
  [ { route_id := "R001", name := "Highway Bypass", distance_km := 8.2,
      additional_time_minutes := 15, traffic_level := "medium",
      road_conditions := "good", recommended := false, toll_cost := 25.0 },
    { route_id := "R002", name := "City Center Route", distance_km := 7.8,
      additional_time_minutes := 12, traffic_level := "high",
      road_conditions := "fair", recommended := false, toll_cost := 0.0 },
    { route_id := "R003", name := "Industrial Zone", distance_km := 9.1,
      additional_time_minutes := 18, traffic_level := "low",
      road_conditions := "excellent", recommended := false, toll_cost := 15.0 },
    { route_id := "R004", name := "Bridge Road", distance_km := 6.5,
      additional_time_minutes := 8, traffic_level := "low",
      road_conditions := "good", recommended := true, toll_cost := 10.0 } ]

/-! ### 4.1 Closure schedule calculator -/

/-- The arrival instant, in minutes relative to midnight of the current day:
datetime.now().replace(hour, minute, second=0, microsecond=0). -/
def arrivalMinutes (t : TrainSchedule) : Option Int :=
  (parseArrival t.arrival_time).map (fun p => 60 * p.1 + p.2)

/-- closure_start instant: arrival minus five minutes. -/
def closureStartM (t : TrainSchedule) : Option Int :=
  (arrivalMinutes t).map (fun arr => arr - 5)

/-- closure_end instant: arrival plus gate_closure_duration minutes. -/
def closureEndM (t : TrainSchedule) : Option Int :=
  (arrivalMinutes t).map (fun arr => arr + t.gate_closure_duration)

/-- The schedule dict built for one train inside the loop of
calculate_gate_closure_schedule. -/
def closureEntry (t : TrainSchedule) : Option ClosureEntry :=
  (arrivalMinutes t).map (fun arr =>
    { train_number := t.train_number
      closure_start := fmtHM (arr - 5)
      closure_end := fmtHM (arr + t.gate_closure_duration)
      duration_minutes := t.gate_closure_duration + 5
      priority := t.priority
      platform := t.platform })

/-- The loop of calculate_gate_closure_schedule: an unhandled ValueError on
any record aborts the whole call, so the list materialises only when every
record parses. -/
def buildEntries : List TrainSchedule → Option (List ClosureEntry)
  | [] => some []
  | t :: ts =>
    match closureEntry t, buildEntries ts with
    | some e, some es => some (e :: es)
    | _, _ => none

/-- Python string comparison: lexicographic by code point. -/
def lexLe : List Char → List Char → Bool
  | [], _ => true
  | _ :: _, [] => false
  | a :: as, b :: bs =>
    if a.toNat < b.toNat then true
    else if b.toNat < a.toNat then false
    else lexLe as bs

def strLe (a b : String) : Bool := lexLe a.data b.data

/-- The sort key of closure_schedule.sort: the closure_start string. -/
def entryLe (a b : ClosureEntry) : Prop := strLe a.closure_start b.closure_start = true

instance : DecidableRel entryLe := fun a b =>
  inferInstanceAs (Decidable (strLe a.closure_start b.closure_start = true))

/-- calculate_gate_closure_schedule: one dict per train, then a stable sort
by the closure_start string (list.sort is stable; insertionSort is stable). -/
def calculate_gate_closure_schedule (trains : List TrainSchedule) :
    Option (List ClosureEntry) :=
  (buildEntries trains).map (List.insertionSort entryLe)

/-! ### 4.2 Route ranker -/

/-- The rush-hour test 7 <= hour <= 9 or 17 <= hour <= 19. -/
def rushHour (hour : Int) : Bool :=
  decide ((7 ≤ hour ∧ hour ≤ 9) ∨ (17 ≤ hour ∧ hour ≤ 19))

/-- The in-place update of one Route object inside the optimize_routes loop:
additional_time_minutes is multiplied by the traffic multiplier sampled for
the route's current traffic_level (the dict .get default 1.0 applies to an
unknown level) and truncated to int; then during rush hours the traffic level
escalates one step.  mult is the value the ambient random source produced. -/
def adjustRoute (hour : Int) (mult : ℚ) (r : Route) : Route :=
  let multUsed : ℚ :=
    if r.traffic_level = "low" ∨ r.traffic_level = "medium" ∨ r.traffic_level = "high"
    then mult else 1
  let newTime : Int := truncQ ((r.additional_time_minutes : ℚ) * multUsed)
  let newLevel : String :=
    if rushHour hour then
      if r.traffic_level = "low" then "medium"
      else if r.traffic_level = "medium" then "high"
      else r.traffic_level
    else r.traffic_level
  { r with additional_time_minutes := newTime, traffic_level := newLevel }

/-- The shared Route objects after the adjustment loop, tagged with their
position in the canonical list (object identity). -/
def adjustedPairs (hour : Int) (rands : Nat → ℚ) (routes : List Route) :
    List (Nat × Route) :=
  routes.enum.map (fun p => (p.1, adjustRoute hour (rands p.1) p.2))

/-- Generic sort key comparison on an Int-valued key. -/
def keyLe {α : Type} (k : α → Int) (a b : α) : Prop := k a ≤ k b

instance {α : Type} (k : α → Int) : DecidableRel (keyLe k) := fun a b =>
  inferInstanceAs (Decidable (k a ≤ k b))

instance {α : Type} (k : α → Int) : IsTotal α (keyLe k) :=
  ⟨fun a b => Int.le_total (k a) (k b)⟩

instance {α : Type} (k : α → Int) : IsTrans α (keyLe k) :=
  ⟨fun _ _ _ hab hbc => le_trans hab hbc⟩

/-- Stable sort by an Int key, the model of Python list.sort(key=...). -/
def sortByKey {α : Type} (k : α → Int) (l : List α) : List α :=
  List.insertionSort (keyLe k) l

/-- The sort key of optimized_routes.sort: adjusted additional_time_minutes. -/
def routeKey (p : Nat × Route) : Int := p.2.additional_time_minutes

/-- optimize_routes.  It copies only the list container
(self.alternative_routes.copy() is a shallow copy), so the loop and the
recommended flags mutate the Route objects the canonical list also holds.
The result is (state of the canonical list after the call, returned list):
the same updated objects, in original order and in sorted order. -/
def optimize_routes (hour : Int) (rands : Nat → ℚ) (routes : List Route) :
    List Route × List Route :=
  let adj := adjustedPairs hour rands routes
  let sortedPairs := sortByKey routeKey adj
  let recIdx : Option Nat := sortedPairs.head?.map Prod.fst
  let setRec : Nat × Route → Route := fun p =>
    { p.2 with recommended := decide (some p.1 = recIdx) }
  (adj.map setRec, sortedPairs.map setRec)

/-! ### 4.3 Wait-time predictor -/

/-- The method _get_wait_recommendation: the four-branch threshold chain. -/
def _get_wait_recommendation (minutes_until : Int) (duration : Int) : String :=
  if minutes_until ≤ 2 then "STOP - Gate closing very soon"
  else if minutes_until ≤ 5 then "CAUTION - Consider alternative route"
  else if duration > 10 then "PLAN - Long closure expected, use alternative route"
  else "PROCEED - Sufficient time to cross"

/-- Python dict assignment d[k] = v on an insertion-ordered dict: an existing
key keeps its position and is overwritten, a new key is appended. -/
def dictInsert (k : String) (v : WaitPrediction) :
    List (String × WaitPrediction) → List (String × WaitPrediction)
  | [] => [(k, v)]
  | (k2, v2) :: rest =>
      if k2 = k then (k, v) :: rest else (k2, v2) :: dictInsert k v rest

/-- The prediction dict built for one future closure: t is the reconstructed
closure_start in minutes-of-day, nowQ the current time in seconds since
midnight (an exact rational, carrying seconds and microseconds). -/
def mkPrediction (nowQ : ℚ) (t : Int) (c : ClosureEntry) : WaitPrediction :=
  let minutes : Int := truncQ ((60 * (t : ℚ) - nowQ) / 60)
  { minutes_until_closure := minutes
    closure_duration := c.duration_minutes
    total_wait_if_caught := c.duration_minutes
    recommended_action := _get_wait_recommendation minutes c.duration_minutes }

/-- One iteration of the predict_wait_times loop: strptime the closure_start
(failure raises, aborting the call), rebuild the instant on the current date,
and record a prediction only if it is strictly in the future. -/
def predictStep (nowQ : ℚ) (acc : List (String × WaitPrediction))
    (c : ClosureEntry) : Option (List (String × WaitPrediction)) :=
  match parseStrptimeHM c.closure_start with
  | none => none
  | some (h, m) =>
    let t : Int := 60 * h + m
    if (60 * (t : ℚ)) > nowQ then
      some (dictInsert c.train_number (mkPrediction nowQ t c) acc)
    else some acc

def predictLoop (nowQ : ℚ) :
    List (String × WaitPrediction) → List ClosureEntry →
    Option (List (String × WaitPrediction))
  | acc, [] => some acc
  | acc, c :: cs =>
    match predictStep nowQ acc c with
    | none => none
    | some acc2 => predictLoop nowQ acc2 cs

/-- predict_wait_times: recompute the closure schedule, then fold the loop
over it starting from an empty dict. -/
def predict_wait_times (trains : List TrainSchedule) (nowQ : ℚ) :
    Option (List (String × WaitPrediction)) :=
  match calculate_gate_closure_schedule trains with
  | none => none
  | some sched => predictLoop nowQ [] sched

/-! ### 4.4 Traffic pattern summarizer -/

/-- The method _get_traffic_intensity: fixed hour bands, high checked first. -/
def _get_traffic_intensity (hour : Int) : String :=
  if (7 ≤ hour ∧ hour ≤ 9) ∨ (17 ≤ hour ∧ hour ≤ 19) then "high"
  else if (10 ≤ hour ∧ hour ≤ 16) ∨ (19 ≤ hour ∧ hour ≤ 21) then "medium"
  else "low"

/-! ### 4.5 Alert generator -/

def mkDelayAlert (nowIso : String) (t : TrainSchedule) : Alert :=
  { type := "delay_alert", priority := "high",
    message := "Train " ++ t.train_number ++ " delayed by "
               ++ toString t.delay_minutes ++ " minutes",
    timestamp := nowIso, train_number := some t.train_number,
    closure_start := none }

def mkLongClosureAlert (nowIso : String) (c : ClosureEntry) : Alert :=
  { type := "long_closure_alert", priority := "medium",
    message := "Extended gate closure expected: " ++ toString c.duration_minutes
               ++ " minutes for " ++ c.train_number,
    timestamp := nowIso, train_number := none,
    closure_start := some c.closure_start }

def mkTrafficAlert (nowIso : String) : Alert :=
  { type := "traffic_alert", priority := "medium",
    message := "High traffic intensity detected. Consider alternative routes.",
    timestamp := nowIso, train_number := none, closure_start := none }

/-- generate_alerts: the delayed-train loop, then the closure schedule is
recomputed (an unparseable arrival aborts the call) and scanned for long
closures, then a single traffic alert if the current intensity is high.
hour is the current hour, nowIso the isoformat timestamp shared by all
alerts of the call. -/
def generate_alerts (trains : List TrainSchedule) (nowIso : String)
    (hour : Int) : Option (List Alert) :=
  let delayAlerts := trains.foldl
    (fun acc t =>
      if t.status = "delayed" ∧ t.delay_minutes > 10
      then acc ++ [mkDelayAlert nowIso t] else acc) []
  match calculate_gate_closure_schedule trains with
  | none => none
  | some sched =>
    let withClosure := sched.foldl
      (fun acc c =>
        if c.duration_minutes > 10
        then acc ++ [mkLongClosureAlert nowIso c] else acc) delayAlerts
    some (if _get_traffic_intensity hour = "high"
          then withClosure ++ [mkTrafficAlert nowIso] else withClosure)

/-! ### Parsing bridge lemmas -/

/-- A zero-padded well-formed HH:MM string parses (via split and int()) to
its hour and minute values. -/
theorem parseArrival_fmt2 : ∀ h : Nat, h < 24 → ∀ m : Nat, m < 60 →
    parseArrival (fmt2 h ++ ":" ++ fmt2 m) = some ((h : Int), (m : Int)) := by
  decide

/-! ### Claim C4: wait recommendation thresholds -/

/-- C4: recommended_action is a pure total function of
(minutes_until_closure, duration_minutes) evaluated as a first-match-wins
chain: minutes ≤ 2 gives STOP; else minutes ≤ 5 gives CAUTION; else
duration > 10 gives PLAN; else PROCEED; with the four quoted examples. -/
theorem wait_recommendation_thresholds (m d : Int) :
    (m ≤ 2 → _get_wait_recommendation m d = "STOP - Gate closing very soon") ∧
    (2 < m → m ≤ 5 →
      _get_wait_recommendation m d = "CAUTION - Consider alternative route") ∧
    (5 < m → 10 < d →
      _get_wait_recommendation m d = "PLAN - Long closure expected, use alternative route") ∧
    (5 < m → d ≤ 10 →
      _get_wait_recommendation m d = "PROCEED - Sufficient time to cross") ∧
    _get_wait_recommendation 2 20 = "STOP - Gate closing very soon" ∧
    _get_wait_recommendation 4 20 = "CAUTION - Consider alternative route" ∧
    _get_wait_recommendation 8 15 = "PLAN - Long closure expected, use alternative route" ∧
    _get_wait_recommendation 8 5 = "PROCEED - Sufficient time to cross" := by
  refine ⟨?_, ?_, ?_, ?_, by decide, by decide, by decide, by decide⟩ <;>
    · intros
      unfold _get_wait_recommendation
      split_ifs <;> first | rfl | omega

/-- Witness for C4 at concrete inputs. -/
theorem wait_recommendation_thresholds_witness :
    _get_wait_recommendation 2 20 = "STOP - Gate closing very soon" ∧
    _get_wait_recommendation 8 5 = "PROCEED - Sufficient time to cross" :=
  ⟨(wait_recommendation_thresholds 2 20).1 (by decide),
   (wait_recommendation_thresholds 8 5).2.2.2.1 (by decide) (by decide)⟩

/-! ### Claim C9: traffic intensity bands -/

/-- C9: traffic intensity is a total function of the integer hour: high
exactly on the two rush bands (the overlap at 19 resolving to high because
that condition is checked first), medium exactly on the remaining part of
the medium bands, low everywhere else, including hour 24; with the quoted
examples. -/
theorem traffic_intensity_bands (h : Int) :
    (_get_traffic_intensity h = "high" ↔
      (7 ≤ h ∧ h ≤ 9) ∨ (17 ≤ h ∧ h ≤ 19)) ∧
    (_get_traffic_intensity h = "medium" ↔
      (((10 ≤ h ∧ h ≤ 16) ∨ (19 ≤ h ∧ h ≤ 21)) ∧
        ¬((7 ≤ h ∧ h ≤ 9) ∨ (17 ≤ h ∧ h ≤ 19)))) ∧
    (_get_traffic_intensity h = "low" ↔
      (¬((7 ≤ h ∧ h ≤ 9) ∨ (17 ≤ h ∧ h ≤ 19)) ∧
        ¬((10 ≤ h ∧ h ≤ 16) ∨ (19 ≤ h ∧ h ≤ 21)))) ∧
    _get_traffic_intensity 24 = "low" ∧
    _get_traffic_intensity 8 = "high" ∧
    _get_traffic_intensity 12 = "medium" ∧
    _get_traffic_intensity 2 = "low" := by
  refine ⟨?_, ?_, ?_, by decide, by decide, by decide, by decide⟩ <;>
      unfold _get_traffic_intensity
  · by_cases h1 : (7 ≤ h ∧ h ≤ 9) ∨ (17 ≤ h ∧ h ≤ 19)
    · rw [if_pos h1]; exact iff_of_true rfl h1
    · rw [if_neg h1]
      split_ifs
      · exact iff_of_false (by decide) h1
      · exact iff_of_false (by decide) h1
  · by_cases h1 : (7 ≤ h ∧ h ≤ 9) ∨ (17 ≤ h ∧ h ≤ 19)
    · rw [if_pos h1]
      exact iff_of_false (by decide) (fun hc => hc.2 h1)
    · rw [if_neg h1]
      by_cases h2 : (10 ≤ h ∧ h ≤ 16) ∨ (19 ≤ h ∧ h ≤ 21)
      · rw [if_pos h2]; exact iff_of_true rfl ⟨h2, h1⟩
      · rw [if_neg h2]
        exact iff_of_false (by decide) (fun hc => h2 hc.1)
  · by_cases h1 : (7 ≤ h ∧ h ≤ 9) ∨ (17 ≤ h ∧ h ≤ 19)
    · rw [if_pos h1]
      exact iff_of_false (by decide) (fun hc => hc.1 h1)
    · rw [if_neg h1]
      by_cases h2 : (10 ≤ h ∧ h ≤ 16) ∨ (19 ≤ h ∧ h ≤ 21)
      · rw [if_pos h2]
        exact iff_of_false (by decide) (fun hc => hc.2 h2)
      · rw [if_neg h2]; exact iff_of_true rfl ⟨h1, h2⟩

/-! ### Claim C1: closure window values -/

/-- C1: for a train whose arrival_time is a well-formed HH:MM string, the
closure schedule calculator produces a window whose closure_start renders
the arrival instant minus 5 minutes, whose closure_end renders the arrival
instant plus gate_closure_duration minutes, and whose duration_minutes is
gate_closure_duration + 5; in particular a train arriving 14:30 with
gate_closure_duration 8 yields 14:25, 14:38 and 13. -/
theorem closure_entry_correct (t : TrainSchedule) (h m : Nat) (hh : h < 24)
    (hm : m < 60) (ha : t.arrival_time = fmt2 h ++ ":" ++ fmt2 m) :
    closureEntry t = some
      { train_number := t.train_number
        closure_start := fmtHM (60 * (h : Int) + (m : Int) - 5)
        closure_end := fmtHM (60 * (h : Int) + (m : Int) + t.gate_closure_duration)
        duration_minutes := t.gate_closure_duration + 5
        priority := t.priority
        platform := t.platform } ∧
    closureEntry
      { train_number := "EXP-12345", arrival_time := "14:30",
        departure_time := "14:38", platform := "3",
        route := "Mumbai-Delhi Express", status := "ontime",
        delay_minutes := 0, gate_closure_duration := 8, priority := "high" }
      = some
      { train_number := "EXP-12345", closure_start := "14:25",
        closure_end := "14:38", duration_minutes := 13,
        priority := "high", platform := "3" } := by
  constructor
  · simp [closureEntry, arrivalMinutes, ha, parseArrival_fmt2 h hh m hm]
  · decide

/-- Witness for C1 at the first sample train. -/
theorem closure_entry_correct_witness :
    ((sample_trains.head?.map (fun t => t.arrival_time))
        = some (fmt2 14 ++ ":" ++ fmt2 30)) ∧
    closureEntry
      { train_number := "EXP-12345", arrival_time := "14:30",
        departure_time := "14:38", platform := "3",
        route := "Mumbai-Delhi Express", status := "ontime",
        delay_minutes := 0, gate_closure_duration := 8, priority := "high" }
      = some
      { train_number := "EXP-12345", closure_start := fmtHM (60 * 14 + 30 - 5),
        closure_end := fmtHM (60 * 14 + 30 + 8), duration_minutes := 13,
        priority := "high", platform := "3" } :=
  ⟨by decide,
   (closure_entry_correct
      { train_number := "EXP-12345", arrival_time := "14:30",
        departure_time := "14:38", platform := "3",
        route := "Mumbai-Delhi Express", status := "ontime",
        delay_minutes := 0, gate_closure_duration := 8, priority := "high" }
      14 30 (by decide) (by decide) (by decide)).1⟩

/-! ### Claim C7: closure window ordering chain -/

/-- C7 as stated is refuted: closure_start equals the arrival instant minus
5 minutes exactly, so the strict inequality closure_start > arrival − 5min
fails on the very first sample train. -/
theorem closure_window_chain_counterexample :
    arrivalMinutes
      { train_number := "EXP-12345", arrival_time := "14:30",
        departure_time := "14:38", platform := "3",
        route := "Mumbai-Delhi Express", status := "ontime",
        delay_minutes := 0, gate_closure_duration := 8, priority := "high" }
      = some 870 ∧
    closureStartM
      { train_number := "EXP-12345", arrival_time := "14:30",
        departure_time := "14:38", platform := "3",
        route := "Mumbai-Delhi Express", status := "ontime",
        delay_minutes := 0, gate_closure_duration := 8, priority := "high" }
      = some 865 ∧
    ¬ ((865 : Int) > 870 - 5) := by
  refine ⟨by decide, by decide, by decide⟩

/-- C7 (amended): for a well-formed HH:MM arrival and positive
gate_closure_duration, closure_end > closure_start and closure_start equals
(hence is at least, but not strictly greater than) the arrival instant minus
5 minutes, and duration_minutes is gate_closure_duration + 5. -/
theorem closure_window_chain (t : TrainSchedule) (h m : Nat) (hh : h < 24)
    (hm : m < 60) (ha : t.arrival_time = fmt2 h ++ ":" ++ fmt2 m)
    (hd : 0 < t.gate_closure_duration) :
    ∃ arr cs ce, arrivalMinutes t = some arr ∧ closureStartM t = some cs ∧
      closureEndM t = some ce ∧ cs = arr - 5 ∧ ce > cs ∧ cs ≥ arr - 5 ∧
      ∀ e, closureEntry t = some e →
        e.duration_minutes = t.gate_closure_duration + 5 := by
  have hp : parseArrival t.arrival_time = some ((h : Int), (m : Int)) := by
    rw [ha]; exact parseArrival_fmt2 h hh m hm
  refine ⟨60 * (h : Int) + (m : Int), 60 * (h : Int) + (m : Int) - 5,
    60 * (h : Int) + (m : Int) + t.gate_closure_duration, ?_, ?_, ?_, rfl, ?_, ?_, ?_⟩
  · simp [arrivalMinutes, hp]
  · simp [closureStartM, arrivalMinutes, hp]
  · simp [closureEndM, arrivalMinutes, hp]
  · omega
  · omega
  · intro e he
    simp [closureEntry, arrivalMinutes, hp] at he
    rw [← he]

/-- Witness for the amended C7 at the first sample train. -/
theorem closure_window_chain_witness :
    (0 : Int) < 8 ∧
    ∃ arr cs ce,
      arrivalMinutes
        { train_number := "EXP-12345", arrival_time := "14:30",
          departure_time := "14:38", platform := "3",
          route := "Mumbai-Delhi Express", status := "ontime",
          delay_minutes := 0, gate_closure_duration := 8, priority := "high" }
        = some arr ∧
      closureStartM
        { train_number := "EXP-12345", arrival_time := "14:30",
          departure_time := "14:38", platform := "3",
          route := "Mumbai-Delhi Express", status := "ontime",
          delay_minutes := 0, gate_closure_duration := 8, priority := "high" }
        = some cs ∧
      closureEndM
        { train_number := "EXP-12345", arrival_time := "14:30",
          departure_time := "14:38", platform := "3",
          route := "Mumbai-Delhi Express", status := "ontime",
          delay_minutes := 0, gate_closure_duration := 8, priority := "high" }
        = some ce ∧ cs = arr - 5 ∧ ce > cs ∧ cs ≥ arr - 5 ∧
      ∀ e, closureEntry
        { train_number := "EXP-12345", arrival_time := "14:30",
          departure_time := "14:38", platform := "3",
          route := "Mumbai-Delhi Express", status := "ontime",
          delay_minutes := 0, gate_closure_duration := 8, priority := "high" }
        = some e → e.duration_minutes = 8 + 5 :=
  ⟨by decide,
   closure_window_chain
     { train_number := "EXP-12345", arrival_time := "14:30",
       departure_time := "14:38", platform := "3",
       route := "Mumbai-Delhi Express", status := "ontime",
       delay_minutes := 0, gate_closure_duration := 8, priority := "high" }
     14 30 (by decide) (by decide) (by decide) (by decide)⟩

/-! ### Claim C8: failure behaviour of the schedule calculator -/

/-- A record whose arrival_time parses has a closure entry, and conversely. -/
theorem closureEntry_isSome (t : TrainSchedule) :
    (closureEntry t).isSome = (parseArrival t.arrival_time).isSome := by
  unfold closureEntry arrivalMinutes
  cases parseArrival t.arrival_time <;> simp

theorem buildEntries_some (trains : List TrainSchedule)
    (h : ∀ t ∈ trains, (parseArrival t.arrival_time).isSome) :
    ∃ es, buildEntries trains = some es := by
  induction trains with
  | nil => exact ⟨[], rfl⟩
  | cons t ts ih =>
    have h1 : (closureEntry t).isSome := by
      rw [closureEntry_isSome]; exact h t (List.mem_cons_self t ts)
    obtain ⟨e, he⟩ := Option.isSome_iff_exists.mp h1
    obtain ⟨es, hes⟩ := ih (fun u hu => h u (List.mem_cons_of_mem t hu))
    exact ⟨e :: es, by simp [buildEntries, he, hes]⟩

theorem buildEntries_none (trains : List TrainSchedule) (t : TrainSchedule)
    (ht : t ∈ trains) (hn : parseArrival t.arrival_time = none) :
    buildEntries trains = none := by
  induction trains with
  | nil => cases ht
  | cons u ts ih =>
    rcases List.mem_cons.mp ht with rfl | hmem
    · have : closureEntry t = none := by simp [closureEntry, arrivalMinutes, hn]
      simp [buildEntries, this]
    · rw [buildEntries, ih hmem]
      cases closureEntry u <;> rfl

/-- C8 as stated is refuted: one malformed arrival_time aborts the whole
batch; no window is produced even for the remaining well-formed record. -/
theorem schedule_parse_failure_counterexample :
    calculate_gate_closure_schedule
      [ { train_number := "BAD-1", arrival_time := "not-a-time",
          departure_time := "00:00", platform := "1", route := "r",
          status := "ontime", delay_minutes := 0,
          gate_closure_duration := 8, priority := "normal" },
        { train_number := "EXP-12345", arrival_time := "14:30",
          departure_time := "14:38", platform := "3",
          route := "Mumbai-Delhi Express", status := "ontime",
          delay_minutes := 0, gate_closure_duration := 8, priority := "high" } ]
      = none ∧
    (closureEntry
      { train_number := "EXP-12345", arrival_time := "14:30",
        departure_time := "14:38", platform := "3",
        route := "Mumbai-Delhi Express", status := "ontime",
        delay_minutes := 0, gate_closure_duration := 8, priority := "high" }).isSome
      = true := by
  refine ⟨by decide, by decide⟩

/-- C8 (amended): a record whose arrival_time is not well-formed HH:MM makes
the whole batch computation fail — the parse error propagates and no windows
are produced for any record — while a batch in which every arrival_time
parses never fails. -/
theorem schedule_parse_failure (trains : List TrainSchedule) :
    ((∀ t ∈ trains, (parseArrival t.arrival_time).isSome) →
      ∃ l, calculate_gate_closure_schedule trains = some l) ∧
    ((∃ t ∈ trains, parseArrival t.arrival_time = none) →
      calculate_gate_closure_schedule trains = none) := by
  constructor
  · intro h
    obtain ⟨es, hes⟩ := buildEntries_some trains h
    exact ⟨List.insertionSort entryLe es, by
      simp [calculate_gate_closure_schedule, hes]⟩
  · rintro ⟨t, ht, hn⟩
    simp [calculate_gate_closure_schedule, buildEntries_none trains t ht hn]

/-- Witness for C8: a fully well-formed batch succeeds; a batch holding one
malformed record fails. -/
theorem schedule_parse_failure_witness :
    (∃ l, calculate_gate_closure_schedule
      [ { train_number := "EXP-12345", arrival_time := "14:30",
          departure_time := "14:38", platform := "3",
          route := "Mumbai-Delhi Express", status := "ontime",
          delay_minutes := 0, gate_closure_duration := 8, priority := "high" } ]
      = some l) ∧
    calculate_gate_closure_schedule
      [ { train_number := "BAD-1", arrival_time := "not-a-time",
          departure_time := "00:00", platform := "1", route := "r",
          status := "ontime", delay_minutes := 0,
          gate_closure_duration := 8, priority := "normal" } ]
      = none :=
  ⟨(schedule_parse_failure _).1 (by decide),
   (schedule_parse_failure _).2 (by decide)⟩

/-! ### Claim C6: schedule sorted by closure_start string -/

theorem lexLe_total : ∀ as bs : List Char, lexLe as bs = true ∨ lexLe bs as = true := by
  intro as
  induction as with
  | nil => intro bs; left; rfl
  | cons a as ih =>
    intro bs
    cases bs with
    | nil => right; rfl
    | cons b bs =>
      rcases Nat.lt_trichotomy a.toNat b.toNat with h | h | h
      · left; simp [lexLe, h]
      · have h1 : ¬ a.toNat < b.toNat := by omega
        have h2 : ¬ b.toNat < a.toNat := by omega
        simp only [lexLe, if_neg h1, if_neg h2]
        exact ih bs
      · right; simp [lexLe, h]

theorem lexLe_trans : ∀ as bs cs : List Char,
    lexLe as bs = true → lexLe bs cs = true → lexLe as cs = true := by
  intro as
  induction as with
  | nil => intro bs cs _ _; rfl
  | cons a as ih =>
    intro bs cs hab hbc
    cases bs with
    | nil => simp [lexLe] at hab
    | cons b bs =>
      cases cs with
      | nil => simp [lexLe] at hbc
      | cons c cs =>
        simp only [lexLe] at hab hbc ⊢
        by_cases h1 : a.toNat < b.toNat
        · by_cases h2 : b.toNat < c.toNat
          · have h3 : a.toNat < c.toNat := by omega
            simp [h3]
          · by_cases h3 : c.toNat < b.toNat
            · simp [h2, h3] at hbc
            · have h4 : a.toNat < c.toNat := by omega
              simp [h4]
        · by_cases h4 : b.toNat < a.toNat
          · simp [h1, h4] at hab
          · have hab2 : lexLe as bs = true := by simpa [h1, h4] using hab
            by_cases h2 : b.toNat < c.toNat
            · have h5 : a.toNat < c.toNat := by omega
              simp [h5]
            · by_cases h3 : c.toNat < b.toNat
              · simp [h2, h3] at hbc
              · have hbc2 : lexLe bs cs = true := by simpa [h2, h3] using hbc
                have h5 : ¬ a.toNat < c.toNat := by omega
                have h6 : ¬ c.toNat < a.toNat := by omega
                simp only [if_neg h5, if_neg h6]
                exact ih bs cs hab2 hbc2

instance : IsTotal ClosureEntry entryLe :=
  ⟨fun a b => lexLe_total a.closure_start.data b.closure_start.data⟩

instance : IsTrans ClosureEntry entryLe :=
  ⟨fun a b c => lexLe_trans a.closure_start.data b.closure_start.data c.closure_start.data⟩

/-- C6: whenever the closure schedule calculator succeeds, its output list is
sorted non-decreasing by the closure_start string under lexicographic
(code point) order. -/
theorem schedule_sorted_by_closure_start (trains : List TrainSchedule)
    (l : List ClosureEntry)
    (hl : calculate_gate_closure_schedule trains = some l) :
    List.Sorted entryLe l := by
  unfold calculate_gate_closure_schedule at hl
  obtain ⟨es, _, rfl⟩ := Option.map_eq_some'.mp hl
  exact List.sorted_insertionSort entryLe es

/-- Witness for C6 on a two-train batch given in reverse time order. -/
theorem schedule_sorted_by_closure_start_witness :
    calculate_gate_closure_schedule
      [ { train_number := "T1", arrival_time := "09:00", departure_time := "09:05",
          platform := "1", route := "r1", status := "ontime",
          delay_minutes := 0, gate_closure_duration := 8, priority := "normal" },
        { train_number := "T2", arrival_time := "08:30", departure_time := "08:35",
          platform := "2", route := "r2", status := "ontime",
          delay_minutes := 0, gate_closure_duration := 8, priority := "normal" } ]
      = some
      [ { train_number := "T2", closure_start := "08:25", closure_end := "08:38",
          duration_minutes := 13, priority := "normal", platform := "2" },
        { train_number := "T1", closure_start := "08:55", closure_end := "09:08",
          duration_minutes := 13, priority := "normal", platform := "1" } ] ∧
    List.Sorted entryLe
      [ { train_number := "T2", closure_start := "08:25", closure_end := "08:38",
          duration_minutes := 13, priority := "normal", platform := "2" },
        { train_number := "T1", closure_start := "08:55", closure_end := "09:08",
          duration_minutes := 13, priority := "normal", platform := "1" } ] :=
  ⟨by decide, schedule_sorted_by_closure_start
    [ { train_number := "T1", arrival_time := "09:00", departure_time := "09:05",
        platform := "1", route := "r1", status := "ontime",
        delay_minutes := 0, gate_closure_duration := 8, priority := "normal" },
      { train_number := "T2", arrival_time := "08:30", departure_time := "08:35",
        platform := "2", route := "r2", status := "ontime",
        delay_minutes := 0, gate_closure_duration := 8, priority := "normal" } ]
    _ (by decide)⟩

/-! ### Claim C10: alert generator output -/

/-- An accumulate-if loop is the filter of the matching elements mapped,
appended to the initial accumulator. -/
theorem foldl_if_append {α β : Type} (p : α → Prop) [DecidablePred p] (f : α → β) :
    ∀ (l : List α) (init : List β),
      l.foldl (fun acc x => if p x then acc ++ [f x] else acc) init
        = init ++ (l.filter (fun x => decide (p x))).map f := by
  intro l
  induction l with
  | nil => intro init; simp
  | cons x xs ih =>
    intro init
    simp only [List.foldl_cons, List.filter_cons]
    by_cases h : p x
    · rw [if_pos h, ih]
      simp [h]
    · rw [if_neg h, ih]
      simp [h]

/-- C10: the alert generator emits, in order: one high-priority delay alert
per delayed train with delay above 10 (input order), then one medium-priority
long-closure alert per window with duration above 10 (schedule order), then a
single medium-priority traffic alert exactly when the current intensity is
high — and nothing else. -/
theorem generate_alerts_structure (trains : List TrainSchedule)
    (nowIso : String) (hour : Int) (sched : List ClosureEntry)
    (hs : calculate_gate_closure_schedule trains = some sched) :
    generate_alerts trains nowIso hour = some (
      (trains.filter (fun t => decide (t.status = "delayed" ∧ t.delay_minutes > 10))).map
          (mkDelayAlert nowIso)
      ++ (sched.filter (fun c => decide (c.duration_minutes > 10))).map
          (mkLongClosureAlert nowIso)
      ++ (if _get_traffic_intensity hour = "high"
          then [mkTrafficAlert nowIso] else [])) ∧
    (∀ t, (mkDelayAlert nowIso t).type = "delay_alert" ∧
          (mkDelayAlert nowIso t).priority = "high" ∧
          (mkDelayAlert nowIso t).train_number = some t.train_number) ∧
    (∀ c, (mkLongClosureAlert nowIso c).type = "long_closure_alert" ∧
          (mkLongClosureAlert nowIso c).priority = "medium") ∧
    (mkTrafficAlert nowIso).type = "traffic_alert" ∧
    (mkTrafficAlert nowIso).priority = "medium" ∧
    (∀ res, generate_alerts trains nowIso hour = some res →
      res.countP (fun a => a.type == "traffic_alert")
        = if _get_traffic_intensity hour = "high" then 1 else 0) := by
  have hmain : generate_alerts trains nowIso hour = some (
      (trains.filter (fun t => decide (t.status = "delayed" ∧ t.delay_minutes > 10))).map
          (mkDelayAlert nowIso)
      ++ (sched.filter (fun c => decide (c.duration_minutes > 10))).map
          (mkLongClosureAlert nowIso)
      ++ (if _get_traffic_intensity hour = "high"
          then [mkTrafficAlert nowIso] else [])) := by
    simp only [generate_alerts, hs]
    rw [foldl_if_append (fun t : TrainSchedule => t.status = "delayed" ∧ t.delay_minutes > 10)
          (mkDelayAlert nowIso) trains []]
    rw [foldl_if_append (fun c : ClosureEntry => c.duration_minutes > 10)
          (mkLongClosureAlert nowIso) sched]
    by_cases hI : _get_traffic_intensity hour = "high"
    · simp [hI, List.append_assoc]
    · simp [hI]
  refine ⟨hmain, fun t => ⟨rfl, rfl, rfl⟩, fun c => ⟨rfl, rfl⟩, rfl, rfl, ?_⟩
  intro res hres
  rw [hmain] at hres
  injection hres with hres
  subst hres
  rw [List.countP_append, List.countP_append]
  have hz1 : List.countP (fun a => a.type == "traffic_alert")
      ((trains.filter (fun t => decide (t.status = "delayed" ∧ t.delay_minutes > 10))).map
        (mkDelayAlert nowIso)) = 0 := by
    apply List.countP_eq_zero.mpr
    intro a ha
    obtain ⟨x, _, rfl⟩ := List.mem_map.mp ha
    exact (by decide : ¬(("delay_alert" : String) == "traffic_alert") = true)
  have hz2 : List.countP (fun a => a.type == "traffic_alert")
      ((sched.filter (fun c => decide (c.duration_minutes > 10))).map
        (mkLongClosureAlert nowIso)) = 0 := by
    apply List.countP_eq_zero.mpr
    intro a ha
    obtain ⟨x, _, rfl⟩ := List.mem_map.mp ha
    exact (by decide : ¬(("long_closure_alert" : String) == "traffic_alert") = true)
  rw [hz1, hz2]
  by_cases hI : _get_traffic_intensity hour = "high"
  · simp [hI, List.countP_cons, mkTrafficAlert]
  · simp [hI]

/-- Witness for C10: a single delayed train with delay 15 yields exactly its
delay alert (followed by the long-closure alert its 13-minute window incurs,
and no traffic alert at hour 3). -/
theorem generate_alerts_structure_witness :
    calculate_gate_closure_schedule
      [ { train_number := "LOC-67890", arrival_time := "14:45",
          departure_time := "14:51", platform := "1",
          route := "Local Passenger Service", status := "delayed",
          delay_minutes := 15, gate_closure_duration := 8, priority := "normal" } ]
      = some
      [ { train_number := "LOC-67890", closure_start := "14:40",
          closure_end := "14:53", duration_minutes := 13,
          priority := "normal", platform := "1" } ] ∧
    generate_alerts
      [ { train_number := "LOC-67890", arrival_time := "14:45",
          departure_time := "14:51", platform := "1",
          route := "Local Passenger Service", status := "delayed",
          delay_minutes := 15, gate_closure_duration := 8, priority := "normal" } ]
      "2026-01-01T00:00:00" 3
      = some (
        ([ { train_number := "LOC-67890", arrival_time := "14:45",
             departure_time := "14:51", platform := "1",
             route := "Local Passenger Service", status := "delayed",
             delay_minutes := 15, gate_closure_duration := 8,
             priority := "normal" } ].filter
            (fun t => decide (t.status = "delayed" ∧ t.delay_minutes > 10))).map
            (mkDelayAlert "2026-01-01T00:00:00")
        ++ ([ { train_number := "LOC-67890", closure_start := "14:40",
                closure_end := "14:53", duration_minutes := 13,
                priority := "normal", platform := "1" } ].filter
            (fun c => decide (c.duration_minutes > 10))).map
            (mkLongClosureAlert "2026-01-01T00:00:00")
        ++ (if _get_traffic_intensity 3 = "high"
            then [mkTrafficAlert "2026-01-01T00:00:00"] else [])) :=
  ⟨by decide, (generate_alerts_structure _ "2026-01-01T00:00:00" 3 _ (by decide)).1⟩

/-! ### Claims C2 and C3: route ranker -/

/-- The first element of a list attaining the minimum of an Int key. -/
def firstMinBy {α : Type} (k : α → Int) : List α → Option α
  | [] => none
  | a :: l =>
    match firstMinBy k l with
    | none => some a
    | some b => some (if k a ≤ k b then a else b)

/-- Follows the specification's words for the ranking step: the recommended
pick is the first candidate, in input order, attaining the minimum adjusted
additional_time_minutes. -/
def specRecommendedPick (l : List Route) : Option Route :=
  firstMinBy (fun r => r.additional_time_minutes) l

theorem firstMinBy_eq_none {α : Type} (k : α → Int) :
    ∀ l : List α, firstMinBy k l = none ↔ l = [] := by
  intro l
  cases l with
  | nil => simp [firstMinBy]
  | cons a l =>
    simp only [firstMinBy]
    cases firstMinBy k l <;> simp

/-- The head of the stable sort is the first minimum of the input. -/
theorem head?_sortByKey {α : Type} (k : α → Int) :
    ∀ l : List α, (sortByKey k l).head? = firstMinBy k l := by
  intro l
  induction l with
  | nil => rfl
  | cons a l ih =>
    show (List.orderedInsert (keyLe k) a (List.insertionSort (keyLe k) l)).head? = _
    cases hs : List.insertionSort (keyLe k) l with
    | nil =>
      have h0 : firstMinBy k l = none := by
        rw [← ih]; simp [sortByKey, hs]
      simp [firstMinBy, h0, List.orderedInsert]
    | cons b t =>
      have h0 : firstMinBy k l = some b := by
        rw [← ih]; simp [sortByKey, hs]
      simp only [firstMinBy, h0, List.orderedInsert]
      by_cases hab : k a ≤ k b
      · have hab2 : keyLe k a b := hab
        rw [if_pos hab2, if_pos hab]; rfl
      · have hab2 : ¬ keyLe k a b := hab
        rw [if_neg hab2, if_neg hab]; rfl

theorem firstMinBy_mem {α : Type} (k : α → Int) :
    ∀ (l : List α) (m : α), firstMinBy k l = some m → m ∈ l := by
  intro l
  induction l with
  | nil => intro m h; cases h
  | cons a l ih =>
    intro m h
    simp only [firstMinBy] at h
    cases h0 : firstMinBy k l with
    | none =>
      rw [h0] at h
      injection h with h
      exact List.mem_cons.mpr (Or.inl h.symm)
    | some b =>
      rw [h0] at h
      injection h with h
      by_cases hab : k a ≤ k b
      · rw [if_pos hab] at h
        exact List.mem_cons.mpr (Or.inl h.symm)
      · rw [if_neg hab] at h
        exact List.mem_cons_of_mem a (h ▸ ih b h0)

theorem firstMinBy_min {α : Type} (k : α → Int) :
    ∀ (l : List α) (m : α), firstMinBy k l = some m →
      ∀ x ∈ l, k m ≤ k x := by
  intro l
  induction l with
  | nil => intro m h; cases h
  | cons a l ih =>
    intro m h x hx
    simp only [firstMinBy] at h
    cases h0 : firstMinBy k l with
    | none =>
      have hl : l = [] := (firstMinBy_eq_none k l).mp h0
      rw [h0] at h
      injection h with h
      subst hl
      rw [← h]
      rcases List.mem_cons.mp hx with h1 | h1
      · rw [h1]
      · cases h1
    | some b =>
      rw [h0] at h
      injection h with h
      have hbl : ∀ y ∈ l, k b ≤ k y := ih b h0
      by_cases hab : k a ≤ k b
      · rw [if_pos hab] at h
        rw [← h]
        rcases List.mem_cons.mp hx with h1 | h1
        · rw [h1]
        · exact le_trans hab (hbl x h1)
      · rw [if_neg hab] at h
        rw [← h]
        rcases List.mem_cons.mp hx with h1 | h1
        · rw [h1]; exact le_of_not_le hab
        · exact hbl x h1

theorem firstMinBy_map {α β : Type} (k : β → Int) (f : α → β) :
    ∀ l : List α,
      firstMinBy k (l.map f) = (firstMinBy (fun a => k (f a)) l).map f := by
  intro l
  induction l with
  | nil => rfl
  | cons a l ih =>
    simp only [List.map_cons, firstMinBy, ih]
    cases h0 : firstMinBy (fun a => k (f a)) l with
    | none => rfl
    | some b =>
      simp only [Option.map_some']
      by_cases hc : k (f a) ≤ k (f b)
      · rw [if_pos hc, if_pos hc]
      · rw [if_neg hc, if_neg hc]

/-- C2: on a non-empty candidate list the ranking pass marks exactly one
returned candidate as recommended; it is the head of the returned (sorted)
list, its adjusted additional_time_minutes is minimal among all returned
candidates, and it is the first candidate in original input order attaining
that minimum (stable tie-break). -/
theorem optimize_routes_recommended (hour : Int) (rands : Nat → ℚ)
    (routes : List Route) (hne : routes ≠ []) :
    ((optimize_routes hour rands routes).2).countP (fun r => r.recommended) = 1 ∧
    ∃ m, specRecommendedPick ((adjustedPairs hour rands routes).map Prod.snd)
        = some m ∧
      ((optimize_routes hour rands routes).2).head?
        = some { m with recommended := true } ∧
      ∀ r ∈ (optimize_routes hour rands routes).2,
        m.additional_time_minutes ≤ r.additional_time_minutes := by
  have hlen : (adjustedPairs hour rands routes).length = routes.length := by
    simp [adjustedPairs]
  have hadj_ne : adjustedPairs hour rands routes ≠ [] := by
    intro h
    apply hne
    have := congrArg List.length h
    rw [hlen] at this
    exact List.length_eq_zero.mp this
  have hsp_ne : sortByKey routeKey (adjustedPairs hour rands routes) ≠ [] := by
    intro h
    apply hadj_ne
    have := (List.perm_insertionSort (keyLe routeKey)
      (adjustedPairs hour rands routes)).length_eq
    rw [show sortByKey routeKey (adjustedPairs hour rands routes)
          = List.insertionSort (keyLe routeKey) (adjustedPairs hour rands routes)
        from rfl] at h
    rw [h] at this
    exact List.length_eq_zero.mp this.symm
  obtain ⟨q, t, hq⟩ := List.exists_cons_of_ne_nil hsp_ne
  have hhead : (sortByKey routeKey (adjustedPairs hour rands routes)).head?
      = some q := by rw [hq]; rfl
  have hfm : firstMinBy routeKey (adjustedPairs hour rands routes) = some q := by
    rw [← head?_sortByKey]; exact hhead
  have hout : (optimize_routes hour rands routes).2
      = (sortByKey routeKey (adjustedPairs hour rands routes)).map
          (fun p => { p.2 with recommended := decide (some p.1 = some q.1) }) := by
    simp only [optimize_routes, hhead, Option.map_some']
  refine ⟨?_, q.2, ?_, ?_, ?_⟩
  · rw [hout, List.countP_map]
    have hcp : List.countP
        ((fun r : Route => r.recommended) ∘
          (fun p : Nat × Route =>
            { p.2 with recommended := decide (some p.1 = some q.1) }))
        (sortByKey routeKey (adjustedPairs hour rands routes))
        = List.countP (fun i : Nat => i == q.1)
            ((sortByKey routeKey (adjustedPairs hour rands routes)).map Prod.fst) := by
      rw [List.countP_map]
      apply List.countP_congr
      intro p _
      simp [Function.comp]
    rw [hcp, ← List.count_eq_countP]
    have hperm : ((sortByKey routeKey (adjustedPairs hour rands routes)).map
        Prod.fst).Perm ((adjustedPairs hour rands routes).map Prod.fst) :=
      (List.perm_insertionSort (keyLe routeKey) _).map Prod.fst
    have hfst : (adjustedPairs hour rands routes).map Prod.fst
        = List.range routes.length := by
      have h1 : (adjustedPairs hour rands routes).map Prod.fst
          = routes.enum.map Prod.fst := by
        simp only [adjustedPairs, List.map_map]
        rfl
      rw [h1]
      exact List.enum_map_fst routes
    have hnodup : ((sortByKey routeKey (adjustedPairs hour rands routes)).map
        Prod.fst).Nodup := by
      apply hperm.symm.nodup
      rw [hfst]
      exact List.nodup_range routes.length
    have hmem : q.1 ∈ (sortByKey routeKey (adjustedPairs hour rands routes)).map
        Prod.fst :=
      List.mem_map_of_mem Prod.fst (hq ▸ List.mem_cons_self q t)
    exact List.count_eq_one_of_mem hnodup hmem
  · rw [specRecommendedPick,
      firstMinBy_map (fun r : Route => r.additional_time_minutes) Prod.snd,
      show firstMinBy
          (fun p : Nat × Route => p.2.additional_time_minutes)
          (adjustedPairs hour rands routes)
        = firstMinBy routeKey (adjustedPairs hour rands routes) from rfl,
      hfm]
    rfl
  · rw [hout, List.head?_map, hhead]
    simp
  · intro r hr
    rw [hout] at hr
    obtain ⟨p, hp, rfl⟩ := List.mem_map.mp hr
    have hp2 : p ∈ adjustedPairs hour rands routes := by
      rw [show sortByKey routeKey (adjustedPairs hour rands routes)
            = List.insertionSort (keyLe routeKey) (adjustedPairs hour rands routes)
          from rfl, List.mem_insertionSort] at hp
      exact hp
    exact firstMinBy_min routeKey (adjustedPairs hour rands routes) q hfm p hp2

/-- Witness for C2 on the canonical route list with a unit multiplier. -/
theorem optimize_routes_recommended_witness :
    initialize_routes ≠ [] ∧
    (((optimize_routes 14 (fun _ => 1) initialize_routes).2).countP
        (fun r => r.recommended) = 1 ∧
      ∃ m, specRecommendedPick
          ((adjustedPairs 14 (fun _ => 1) initialize_routes).map Prod.snd)
          = some m ∧
        ((optimize_routes 14 (fun _ => 1) initialize_routes).2).head?
          = some { m with recommended := true } ∧
        ∀ r ∈ (optimize_routes 14 (fun _ => 1) initialize_routes).2,
          m.additional_time_minutes ≤ r.additional_time_minutes) :=
  ⟨by simp [initialize_routes],
   optimize_routes_recommended 14 (fun _ => 1) initialize_routes
     (by simp [initialize_routes])⟩

/-- C3 as stated is refuted: optimize_routes copies only the list container;
the Route objects are shared with the canonical list and mutated in place, so
after a rush-hour call with unit multipliers the canonical candidates'
traffic_level fields have changed. -/
theorem optimize_routes_mutation_counterexample :
    ((optimize_routes 8 (fun _ => 1) initialize_routes).1).map
        (fun r => r.traffic_level)
      ≠ initialize_routes.map (fun r => r.traffic_level) := by
  decide

/-- C3 (amended): each call allocates a new list container but shares the
route records: the canonical list keeps its length and order (route_ids
unchanged in place), while the shared records' additional_time_minutes,
traffic_level and recommended fields are rewritten by the call; the returned
list is a permutation (the re-sorted view) of the same updated records. -/
theorem optimize_routes_shares_records (hour : Int) (rands : Nat → ℚ)
    (routes : List Route) :
    ((optimize_routes hour rands routes).1).map (fun r => r.route_id)
      = routes.map (fun r => r.route_id) ∧
    ((optimize_routes hour rands routes).2).Perm
      ((optimize_routes hour rands routes).1) := by
  constructor
  · have h1 : (optimize_routes hour rands routes).1
        = (adjustedPairs hour rands routes).map
            (fun p => { p.2 with recommended := decide (some p.1
              = (sortByKey routeKey (adjustedPairs hour rands routes)).head?.map
                  Prod.fst) }) := by
      simp only [optimize_routes]
    rw [h1, List.map_map, adjustedPairs, List.map_map]
    have h2 : routes.map (fun r => r.route_id)
        = (routes.enum.map Prod.snd).map (fun r => r.route_id) := by
      rw [List.enum_map_snd]
    rw [h2, List.map_map]
    rfl
  · have h2 : (optimize_routes hour rands routes).2
        = (sortByKey routeKey (adjustedPairs hour rands routes)).map
            (fun p => { p.2 with recommended := decide (some p.1
              = (sortByKey routeKey (adjustedPairs hour rands routes)).head?.map
                  Prod.fst) }) := by
      simp only [optimize_routes]
    have h1 : (optimize_routes hour rands routes).1
        = (adjustedPairs hour rands routes).map
            (fun p => { p.2 with recommended := decide (some p.1
              = (sortByKey routeKey (adjustedPairs hour rands routes)).head?.map
                  Prod.fst) }) := by
      simp only [optimize_routes]
    rw [h1, h2]
    exact (List.perm_insertionSort (keyLe routeKey) _).map _

/-! ### Claim C5: wait-time predictor inclusion -/

/-- The window predict_wait_times records for one schedule entry: the
(train_number, prediction) pair when the reconstructed closure_start instant
is strictly in the future, nothing otherwise. -/
def futureWindow (nowQ : ℚ) (c : ClosureEntry) :
    Option (String × WaitPrediction) :=
  match parseStrptimeHM c.closure_start with
  | none => none
  | some (h, m) =>
    if (60 * ((60 * h + m : Int) : ℚ)) > nowQ then
      some (c.train_number, mkPrediction nowQ (60 * h + m) c)
    else none

/-- strptime with %H:%M inverts the strftime rendering of a time of day. -/
theorem parseStrptimeHM_fmtHMn : ∀ h : Nat, h < 24 → ∀ m : Nat, m < 60 →
    parseStrptimeHM (fmtHMn (60 * h + m)) = some ((h : Int), (m : Int)) := by
  decide

theorem parseStrptimeHM_fmtHM (t : Int) :
    ∃ h m, parseStrptimeHM (fmtHM t) = some (h, m) := by
  have h0 : (0 : Int) ≤ t % 1440 := Int.emod_nonneg t (by norm_num)
  have h1 : t % 1440 < 1440 := Int.emod_lt_of_pos t (by norm_num)
  have h2 : (t % 1440).toNat < 1440 := by omega
  have h3 : (t % 1440).toNat / 60 < 24 := by omega
  have h4 : (t % 1440).toNat % 60 < 60 := by omega
  have h5 : 60 * ((t % 1440).toNat / 60) + (t % 1440).toNat % 60
      = (t % 1440).toNat := Nat.div_add_mod (t % 1440).toNat 60
  have hb := parseStrptimeHM_fmtHMn _ h3 _ h4
  rw [h5] at hb
  refine ⟨((t % 1440).toNat / 60 : Nat), ((t % 1440).toNat % 60 : Nat), ?_⟩
  rw [fmtHM]
  exact hb

theorem buildEntries_mem : ∀ (trains : List TrainSchedule)
    (es : List ClosureEntry), buildEntries trains = some es →
    ∀ c ∈ es, ∃ t ∈ trains, closureEntry t = some c := by
  intro trains
  induction trains with
  | nil =>
    intro es hes c hc
    injection hes with hes
    rw [← hes] at hc
    cases hc
  | cons t ts ih =>
    intro es hes c hc
    rw [buildEntries] at hes
    cases h1 : closureEntry t with
    | none => rw [h1] at hes; cases hes
    | some e =>
      rw [h1] at hes
      cases h2 : buildEntries ts with
      | none => rw [h2] at hes; cases hes
      | some es2 =>
        rw [h2] at hes
        injection hes with hes
        rw [← hes] at hc
        rcases List.mem_cons.mp hc with h3 | h3
        · exact ⟨t, List.mem_cons_self t ts, h3 ▸ h1⟩
        · obtain ⟨u, hu, hue⟩ := ih es2 h2 c h3
          exact ⟨u, List.mem_cons_of_mem t hu, hue⟩

/-- Every entry the calculator emits has a closure_start that strptime can
parse back (it is a rendered time of day). -/
theorem closureEntry_parses (t : TrainSchedule) (c : ClosureEntry)
    (h : closureEntry t = some c) :
    ∃ h2 m2, parseStrptimeHM c.closure_start = some (h2, m2) := by
  unfold closureEntry at h
  obtain ⟨arr, _, hc⟩ := Option.map_eq_some'.mp h
  have : c.closure_start = fmtHM (arr - 5) := by rw [← hc]
  rw [this]
  exact parseStrptimeHM_fmtHM (arr - 5)

theorem dictInsert_not_mem (k : String) (v : WaitPrediction) :
    ∀ acc : List (String × WaitPrediction), k ∉ acc.map Prod.fst →
      dictInsert k v acc = acc ++ [(k, v)] := by
  intro acc
  induction acc with
  | nil => intro _; rfl
  | cons kv rest ih =>
    intro hk
    obtain ⟨k2, v2⟩ := kv
    rw [List.map_cons, List.mem_cons] at hk
    push_neg at hk
    rw [dictInsert, if_neg (fun he => hk.1 he.symm), ih hk.2]
    rfl

/-- The predictor loop, on entries whose closure_start parses and whose
train_numbers are new and pairwise distinct, appends exactly the future
windows in schedule order. -/
theorem predictLoop_cons_of_step (nowQ : ℚ)
    (acc : List (String × WaitPrediction)) (c : ClosureEntry)
    (cs : List ClosureEntry) (acc2 : List (String × WaitPrediction))
    (h : predictStep nowQ acc c = some acc2) :
    predictLoop nowQ acc (c :: cs) = predictLoop nowQ acc2 cs := by
  rw [predictLoop, h]

theorem predictLoop_eq (nowQ : ℚ) : ∀ (sched : List ClosureEntry)
    (acc : List (String × WaitPrediction)),
    (∀ c ∈ sched, (parseStrptimeHM c.closure_start).isSome) →
    ((sched.map (fun c => c.train_number)).Nodup) →
    (∀ c ∈ sched, c.train_number ∉ acc.map Prod.fst) →
    predictLoop nowQ acc sched
      = some (acc ++ sched.filterMap (futureWindow nowQ)) := by
  intro sched
  induction sched with
  | nil => intro acc _ _ _; simp [predictLoop]
  | cons c cs ih =>
    intro acc hp hnd hk
    obtain ⟨pr, hc⟩ := Option.isSome_iff_exists.mp
      (hp c (List.mem_cons_self c cs))
    obtain ⟨h2, m2⟩ := pr
    have hp2 : ∀ c2 ∈ cs, (parseStrptimeHM c2.closure_start).isSome :=
      fun c2 hc2 => hp c2 (List.mem_cons_of_mem c hc2)
    have hnd2 : (cs.map (fun c2 => c2.train_number)).Nodup := by
      rw [List.map_cons] at hnd
      exact hnd.of_cons
    have hnum : c.train_number ∉ cs.map (fun c2 => c2.train_number) := by
      rw [List.map_cons] at hnd
      exact (List.nodup_cons.mp hnd).1
    by_cases hf : (60 * ((60 * h2 + m2 : Int) : ℚ)) > nowQ
    · have hstep : predictStep nowQ acc c
          = some (acc ++ [(c.train_number, mkPrediction nowQ (60 * h2 + m2) c)]) := by
        simp only [predictStep, hc]
        rw [if_pos hf, dictInsert_not_mem _ _ acc (hk c (List.mem_cons_self c cs))]
      have hk2 : ∀ c2 ∈ cs, c2.train_number ∉
          ((acc ++ [(c.train_number, mkPrediction nowQ (60 * h2 + m2) c)]).map
            Prod.fst) := by
        intro c2 hc2
        rw [List.map_append, List.mem_append]
        rintro (hin | hin)
        · exact hk c2 (List.mem_cons_of_mem c hc2) hin
        · rcases List.mem_singleton.mp hin with heq
          have heq2 : c2.train_number = c.train_number := heq
          apply hnum
          rw [← heq2]
          exact List.mem_map_of_mem (fun c2 => c2.train_number) hc2
      rw [predictLoop_cons_of_step nowQ acc c cs _ hstep, ih _ hp2 hnd2 hk2]
      have hfw : futureWindow nowQ c
          = some (c.train_number, mkPrediction nowQ (60 * h2 + m2) c) := by
        simp only [futureWindow, hc]
        rw [if_pos hf]
      rw [List.filterMap_cons, hfw]
      simp
    · have hstep : predictStep nowQ acc c = some acc := by
        simp only [predictStep, hc]
        rw [if_neg hf]
      rw [predictLoop_cons_of_step nowQ acc c cs _ hstep,
        ih _ hp2 hnd2 (fun c2 hc2 => hk c2 (List.mem_cons_of_mem c hc2))]
      have hfw : futureWindow nowQ c = none := by
        simp only [futureWindow, hc]
        rw [if_neg hf]
      rw [List.filterMap_cons, hfw]

/-- C5: the wait-time predictor records an entry for a schedule window if and
only if the instant reconstructed from its closure_start against the current
date is strictly after now, and the recorded minutes_until_closure is the
time delta in seconds divided by 60 and truncated toward zero. -/
theorem predict_includes_iff_future (trains : List TrainSchedule) (nowQ : ℚ)
    (sched : List ClosureEntry)
    (hs : calculate_gate_closure_schedule trains = some sched)
    (hnd : (sched.map (fun c => c.train_number)).Nodup) :
    ∃ preds, predict_wait_times trains nowQ = some preds ∧
      ∀ c ∈ sched, ∀ h m, parseStrptimeHM c.closure_start = some (h, m) →
        ((∃ p, (c.train_number, p) ∈ preds)
            ↔ 60 * ((60 * h + m : Int) : ℚ) > nowQ) ∧
        (∀ p, (c.train_number, p) ∈ preds →
          p.minutes_until_closure
            = truncQ ((60 * ((60 * h + m : Int) : ℚ) - nowQ) / 60)) := by
  have hparse : ∀ c ∈ sched, (parseStrptimeHM c.closure_start).isSome := by
    intro c hc
    unfold calculate_gate_closure_schedule at hs
    obtain ⟨es, hes, rfl⟩ := Option.map_eq_some'.mp hs
    rw [List.mem_insertionSort] at hc
    obtain ⟨t, _, ht⟩ := buildEntries_mem trains es hes c hc
    obtain ⟨h2, m2, hp⟩ := closureEntry_parses t c ht
    simp [hp]
  refine ⟨sched.filterMap (futureWindow nowQ), ?_, ?_⟩
  · simp only [predict_wait_times, hs]
    rw [predictLoop_eq nowQ sched [] hparse hnd (by simp)]
    simp
  · intro c hc h m hp
    have hinv : ∀ p : WaitPrediction,
        (c.train_number, p) ∈ sched.filterMap (futureWindow nowQ) →
        60 * ((60 * h + m : Int) : ℚ) > nowQ ∧
          p = mkPrediction nowQ (60 * h + m) c := by
      intro p hmem
      rw [List.mem_filterMap] at hmem
      obtain ⟨c2, hc2, hfw⟩ := hmem
      have hnum : c2.train_number = c.train_number := by
        unfold futureWindow at hfw
        cases hq : parseStrptimeHM c2.closure_start with
        | none => rw [hq] at hfw; cases hfw
        | some pr =>
          obtain ⟨h3, m3⟩ := pr
          rw [hq] at hfw
          have hfw2 : (if (60 * ((60 * h3 + m3 : Int) : ℚ)) > nowQ then
              some (c2.train_number, mkPrediction nowQ (60 * h3 + m3) c2)
              else none) = some (c.train_number, p) := hfw
          by_cases hcond : (60 * ((60 * h3 + m3 : Int) : ℚ)) > nowQ
          · rw [if_pos hcond] at hfw2
            injection hfw2 with hfw2
            rw [Prod.mk.injEq] at hfw2
            exact hfw2.1
          · rw [if_neg hcond] at hfw2; cases hfw2
      have hceq : c2 = c := List.inj_on_of_nodup_map hnd hc2 hc hnum
      rw [hceq] at hfw
      unfold futureWindow at hfw
      rw [hp] at hfw
      have hfw2 : (if (60 * ((60 * h + m : Int) : ℚ)) > nowQ then
          some (c.train_number, mkPrediction nowQ (60 * h + m) c)
          else none) = some (c.train_number, p) := hfw
      by_cases hcond : (60 * ((60 * h + m : Int) : ℚ)) > nowQ
      · rw [if_pos hcond] at hfw2
        injection hfw2 with hfw2
        rw [Prod.mk.injEq] at hfw2
        exact ⟨hcond, hfw2.2.symm⟩
      · rw [if_neg hcond] at hfw2; cases hfw2
    refine ⟨⟨fun hex => ?_, fun hfut => ?_⟩, fun p hmem => ?_⟩
    · obtain ⟨p, hmem⟩ := hex
      exact (hinv p hmem).1
    · refine ⟨mkPrediction nowQ (60 * h + m) c, ?_⟩
      rw [List.mem_filterMap]
      refine ⟨c, hc, ?_⟩
      simp only [futureWindow, hp]
      rw [if_pos hfut]
    · rw [(hinv p hmem).2]
      rfl

/-- Witness for C5 on a two-train batch evaluated at 08:20:00. -/
theorem predict_includes_iff_future_witness :
    calculate_gate_closure_schedule
      [ { train_number := "T1", arrival_time := "09:00", departure_time := "09:05",
          platform := "1", route := "r1", status := "ontime",
          delay_minutes := 0, gate_closure_duration := 8, priority := "normal" },
        { train_number := "T2", arrival_time := "08:30", departure_time := "08:35",
          platform := "2", route := "r2", status := "ontime",
          delay_minutes := 0, gate_closure_duration := 8, priority := "normal" } ]
      = some
      [ { train_number := "T2", closure_start := "08:25", closure_end := "08:38",
          duration_minutes := 13, priority := "normal", platform := "2" },
        { train_number := "T1", closure_start := "08:55", closure_end := "09:08",
          duration_minutes := 13, priority := "normal", platform := "1" } ] ∧
    (([ { train_number := "T2", closure_start := "08:25", closure_end := "08:38",
          duration_minutes := 13, priority := "normal", platform := "2" },
        { train_number := "T1", closure_start := "08:55", closure_end := "09:08",
          duration_minutes := 13, priority := "normal", platform := "1" }
      ] : List ClosureEntry).map (fun c => c.train_number)).Nodup ∧
    (∃ preds, predict_wait_times
      [ { train_number := "T1", arrival_time := "09:00", departure_time := "09:05",
          platform := "1", route := "r1", status := "ontime",
          delay_minutes := 0, gate_closure_duration := 8, priority := "normal" },
        { train_number := "T2", arrival_time := "08:30", departure_time := "08:35",
          platform := "2", route := "r2", status := "ontime",
          delay_minutes := 0, gate_closure_duration := 8, priority := "normal" } ]
      (30000 : ℚ) = some preds ∧
      ∀ c ∈ [ ({ train_number := "T2", closure_start := "08:25",
                 closure_end := "08:38", duration_minutes := 13,
                 priority := "normal", platform := "2" } : ClosureEntry),
              { train_number := "T1", closure_start := "08:55",
                closure_end := "09:08", duration_minutes := 13,
                priority := "normal", platform := "1" } ],
        ∀ h m, parseStrptimeHM c.closure_start = some (h, m) →
          ((∃ p, (c.train_number, p) ∈ preds)
              ↔ 60 * ((60 * h + m : Int) : ℚ) > (30000 : ℚ)) ∧
          (∀ p, (c.train_number, p) ∈ preds →
            p.minutes_until_closure
              = truncQ ((60 * ((60 * h + m : Int) : ℚ) - (30000 : ℚ)) / 60))) :=
  ⟨by decide, by decide,
   predict_includes_iff_future _ (30000 : ℚ) _ (by decide) (by decide)⟩

end RailGate
